import Mathlib

/-
Verification of the editor/diagram synchronization and short-link middleware
of the react-flow-test repository, as a shallow embedding in Lean 4.

Source files embedded:
  - the Editor component (src/unnamed/part_000): Flow value prop, validation
    aggregation, URL/history synchronization, analytics effect, view-width
    computation, panel-width persistence, editor change handler;
  - src/packages/otelbin/src/middleware.ts: handleShortLinkRequest.

JavaScript conventions used throughout the embedding:
  - a JS string is falsy exactly when it is empty;
  - null/undefined values are Option.none;
  - DOM/localStorage state is passed explicitly;
  - a React effect body is embedded as the list of external actions it emits.
-/

namespace OtelBin

/-- JS truthiness of a string: falsy exactly when empty. -/
def truthyString (s : String) : Bool := s ≠ ""

/-- The Flow value prop from the Editor component, line 171 of the source:
the JS expression (isValidConfig && currentConfig) || "\x7b\x7d".
When isValidConfig is false the conjunction is falsy; when currentConfig is
the empty string the disjunction falls through to the placeholder. -/
def flowValue (isValidConfig : Bool) (currentConfig : String) : String :=
  if isValidConfig && truthyString currentConfig then currentConfig else "\x7b\x7d"

/-- The validation error report (IError from ValidationErrorConsole); the
Editor component reads exactly two fields of it: yamlError (a single
top-level parse error, null when absent) and ajvErrors (a list of
schema-level errors, possibly absent). Both default to absent, so that
the empty object literal of the source is the record with default fields. -/
structure IError where
  yamlError : Option String := none
  ajvErrors : Option (List String) := none
deriving DecidableEq, Repr

/-- The totalValidationErrors memo of the Editor component: when both the
editor handle and the monaco handle are ready it delegates to the external
validation routine on the current configuration, otherwise it returns the
empty report. The external routine is a parameter. -/
def totalValidationErrors (editorRef monacoRef : Bool)
    (validate : String → IError) (currentConfig : String) : IError :=
  if editorRef && monacoRef then validate currentConfig else {}

/-- isValidConfig from the Editor component, line 79: the report has a null
yamlError and its optional ajvErrors list has length zero (absent counts
as zero, as in the JS expression (ajvErrors?.length ?? 0) === 0). -/
def isValidConfig (e : IError) : Bool :=
  e.yamlError == none && ((e.ajvErrors.map List.length).getD 0 == 0)

/-- handleEditorChange from the Editor component: the new current
configuration produced from an editor change event. The external
selectConfigType function is a parameter; the editor value may be
undefined (none). Embeds
setCurrentConfig((selectConfigType(value ?? "") as string) ?? ""). -/
def handleEditorChange (selectConfigType : String → Option String)
    (value : Option String) : String :=
  (selectConfigType (value.getD "")).getD ""

/-- The two browser history update methods. -/
inductive HistoryMethod where
  | pushState
  | replaceState
deriving DecidableEq, Repr

/-- One browser history update: which method was called and with which URL. -/
structure HistoryUpdate where
  method : HistoryMethod
  url : String
deriving DecidableEq, Repr

/-- onChangeConfig from the Editor component, lines 56-63: calls
window.history.pushState(null, "", getLink(\x7b config: newConfig \x7d)).
The external getLink function is a parameter; the result is the single
history update the callback issues. -/
def onChangeConfig (getLink : String → String) (newConfig : String) : HistoryUpdate :=
  ⟨HistoryMethod.pushState, getLink newConfig⟩

/-- The change-detection effect of the Editor component, lines 100-108: the
list of history updates its body emits. It calls onChangeConfig(currentConfig)
exactly when currentConfig differs from the URL-decoded config. -/
def configSyncEffect (getLink : String → String) (currentConfig config : String) :
    List HistoryUpdate :=
  if currentConfig ≠ config then [onChangeConfig getLink currentConfig] else []

/-- The mount-time analytics effect of the Editor component, lines 86-91
(dependency list is empty, so it runs once per mount): the list of analytics
events its body emits. It fires the tracking event exactly when the loaded
config differs from the fallback default. -/
def mountTrackEffect (config fallback : String) : List String :=
  if config ≠ fallback then ["Opened with non-default config"] else []

/-- calculateViewWidth from the Editor component, lines 110-119: a switch on
the view mode string; the default branch covers the split mode "both" and
renders the stored pixel width as a template string with a px suffix. -/
def calculateViewWidth (viewMode : String) (width : Int) : String :=
  match viewMode with
  | "code" => "100%"
  | "pipeline" => "0px"
  | _ => toString width ++ "px"

/-- Browser localStorage modelled as an association list from keys to string
values; the most recent binding of a key comes first. -/
def LocalStorage := List (String × String)

/-- localStorage.setItem: bind the key to the value. -/
def setItem (store : LocalStorage) (key value : String) : LocalStorage :=
  (key, value) :: store

/-- localStorage.getItem: the most recent value bound to the key, null (none)
when the key is absent. -/
def getItem (store : LocalStorage) (key : String) : Option String :=
  (store.find? (fun kv => kv.1 == key)).map (fun kv => kv.2)

/-- The decimal digit character for a digit value below ten. -/
def digitToChar (d : Nat) : Char := Char.ofNat (48 + d)

/-- The digit value of a decimal digit character, none for any other
character. -/
def charToDigit (c : Char) : Option Nat :=
  if c.isDigit then some (c.toNat - 48) else none

/-- The decimal digit characters of a natural number, most significant digit
first, as produced by the JS String() conversion of a nonnegative number. -/
def natChars (n : Nat) : List Char :=
  if n = 0 then ['0'] else (Nat.digits 10 n).reverse.map digitToChar

/-- Parse a list of characters as decimal digit values, failing on the first
non-digit character. -/
def parseDigitsCore : List Char → Option (List Nat)
  | [] => some []
  | c :: cs =>
    match charToDigit c, parseDigitsCore cs with
    | some d, some ds => some (d :: ds)
    | _, _ => none

/-- Parse a nonempty all-digit character list as a natural number, most
significant digit first. -/
def parseNatChars (cs : List Char) : Option Nat :=
  if cs.isEmpty then none
  else (parseDigitsCore cs).map (fun ds => Nat.ofDigits 10 ds.reverse)

/-- The JS String() conversion of an integer-valued number: a minus sign for
negative values followed by the decimal digits of the magnitude. -/
def jsStringOfInt (w : Int) : String :=
  if w < 0 then String.mk ('-' :: natChars w.natAbs) else String.mk (natChars w.toNat)

/-- The JS Number() conversion on a character list holding an optional-sign
decimal integer literal; none stands for NaN. Fractional, hexadecimal and
whitespace forms never arise from the stored width strings and are mapped
to none as well. -/
def jsNumberChars : List Char → Option Int
  | '-' :: rest => (parseNatChars rest).map (fun n : Nat => -(n : Int))
  | cs => (parseNatChars cs).map (fun n : Nat => (n : Int))

/-- The JS Number() conversion of a string, see jsNumberChars. -/
def jsNumberOfString (s : String) : Option Int :=
  jsNumberChars s.data

/-- onWidthChange from the Editor component, lines 51-54: writes
String(newWidth) under the localStorage key "width" and sets the width
state to newWidth. Returns the updated store and the new state. -/
def onWidthChange (store : LocalStorage) (newWidth : Int) : LocalStorage × Int :=
  (setItem store "width" (jsStringOfInt newWidth), newWidth)

/-- The initial width state of a fresh load, line 43 of the source:
Number(localStorage.getItem("width") ?? 440). A missing key yields 440;
a present value is converted with Number(), none standing for NaN. -/
def initialWidth (store : LocalStorage) : Option Int :=
  match getItem store "width" with
  | none => some 440
  | some s => jsNumberOfString s

/-- Split a character list at every slash; each returned component is
slash-free. The accumulator holds the current component reversed. -/
def segsAux : List Char → List Char → List (List Char)
  | [], acc => [acc.reverse]
  | c :: rest, acc =>
    if c = '/' then acc.reverse :: segsAux rest [] else segsAux rest (c :: acc)

/-- The slash-separated components of a pathname string. -/
def pathSegs (path : String) : List (List Char) :=
  segsAux path.data []

/-- The middleware regular expression of middleware.ts, line 12, which is
anchored only at the end of the pathname: the pathname matches exactly when
it ends in a slash, the component letter s, a slash, and a final nonempty
slash-free segment; the captured group is that final segment. In component
terms: the last component is nonempty, the one before it is s, and at least
one component precedes those two (supplying the slash before the s). -/
def shortLinkMatch (path : String) : Option String :=
  match (pathSegs path).reverse with
  | seg :: ['s'] :: _ :: _ => if seg.isEmpty then none else some (String.mk seg)
  | _ => none

/-- The outcome of the middleware: an internal rewrite to a URL, or passing
the request through unmodified (NextResponse.next). -/
inductive NextResponseAction where
  | rewrite (url : String)
  | next
deriving DecidableEq, Repr

/-- handleShortLinkRequest from middleware.ts: when the pathname matches the
short-link regular expression and the request is classified as a bot, the
request is rewritten to /s/<id>/preview; otherwise it passes through. The
bot classification (isBotRequest, external) is a parameter. -/
def handleShortLinkRequest (pathname : String) (isBot : Bool) : NextResponseAction :=
  match shortLinkMatch pathname with
  | some shortLinkID =>
    if isBot then NextResponseAction.rewrite ("/s/" ++ shortLinkID ++ "/preview")
    else NextResponseAction.next
  | none => NextResponseAction.next

/-- The claim-side reading of a path that, in the words of the claim, matches
/s/<id> exactly: one nonempty slash-free segment after /s/ and nothing
following, i.e. the components are precisely the empty root, s, and a
nonempty segment. Stated for comparison with the behavior of
handleShortLinkRequest, whose regular expression is anchored only at the
end. -/
def claimExactShortLinkPath (path : String) : Bool :=
  match pathSegs path with
  | [[], ['s'], seg] => !seg.isEmpty
  | _ => false


/-! Helper lemmas for the decimal round-trip of the persisted width. -/

lemma charToDigit_digitToChar (d : Nat) (h : d < 10) : charToDigit (digitToChar d) = some d := by
  interval_cases d <;> decide

lemma parseDigitsCore_map (l : List Nat) (h : ∀ d ∈ l, d < 10) :
    parseDigitsCore (l.map digitToChar) = some l := by
  induction l with
  | nil => rfl
  | cons d ds ih =>
    have hd : d < 10 := h d (List.mem_cons_self d ds)
    have hds : ∀ x ∈ ds, x < 10 := fun x hx => h x (List.mem_cons_of_mem _ hx)
    simp [parseDigitsCore, charToDigit_digitToChar d hd, ih hds]

lemma parseNatChars_natChars (n : Nat) : parseNatChars (natChars n) = some n := by
  by_cases hn : n = 0
  · subst hn; decide
  · have hdig : ∀ d ∈ (Nat.digits 10 n).reverse, d < 10 := by
      intro d hd
      exact Nat.digits_lt_base (by norm_num) (List.mem_reverse.mp hd)
    have hne : (Nat.digits 10 n).reverse ≠ [] := by
      simp [Nat.digits_ne_nil_iff_ne_zero.mpr hn]
    unfold natChars
    rw [if_neg hn]
    unfold parseNatChars
    rw [parseDigitsCore_map _ hdig]
    have hemp : ((Nat.digits 10 n).reverse.map digitToChar).isEmpty = false := by
      cases hcs : (Nat.digits 10 n).reverse with
      | nil => exact absurd hcs hne
      | cons c cs => simp [hcs]
    rw [hemp]
    simp [Nat.ofDigits_digits]

lemma natChars_ne_nil (n : Nat) : natChars n ≠ [] := by
  intro h
  have := parseNatChars_natChars n
  rw [h] at this
  simp [parseNatChars] at this

lemma natChars_ne_neg (n : Nat) (rest : List Char) : natChars n ≠ '-' :: rest := by
  intro h
  have := parseNatChars_natChars n
  rw [h] at this
  have hcd : charToDigit '-' = none := by decide
  simp [parseNatChars, parseDigitsCore, hcd] at this

lemma jsNumberChars_cons_of_ne (c : Char) (rest : List Char) (h : c ≠ '-') :
    jsNumberChars (c :: rest) = (parseNatChars (c :: rest)).map (fun n : Nat => (n : Int)) := by
  unfold jsNumberChars
  split
  · rename_i heq
    rw [List.cons.injEq] at heq
    exact absurd heq.1 h
  · rfl

lemma jsNumber_roundtrip (w : Int) : jsNumberOfString (jsStringOfInt w) = some w := by
  unfold jsNumberOfString jsStringOfInt
  by_cases hw : w < 0
  · rw [if_pos hw]
    show jsNumberChars ('-' :: natChars w.natAbs) = some w
    have : jsNumberChars ('-' :: natChars w.natAbs)
        = (parseNatChars (natChars w.natAbs)).map (fun n : Nat => -(n : Int)) := rfl
    rw [this, parseNatChars_natChars]
    simp only [Option.map_some, Option.map_some', Option.some.injEq]
    omega
  · rw [if_neg hw]
    show jsNumberChars (natChars w.toNat) = some w
    cases hcs : natChars w.toNat with
    | nil => exact absurd hcs (natChars_ne_nil _)
    | cons c rest =>
      have hc : c ≠ '-' := by
        intro h
        exact natChars_ne_neg w.toNat rest (by rw [hcs, h])
      rw [jsNumberChars_cons_of_ne c rest hc, ← hcs, parseNatChars_natChars]
      simp only [Option.map_some, Option.map_some', Option.some.injEq]
      omega


/-! Helper lemmas for the short-link middleware. -/

lemma segsAux_no_slash (l acc : List Char) (h : '/' ∉ l) :
    segsAux l acc = [acc.reverse ++ l] := by
  induction l generalizing acc with
  | nil => simp [segsAux]
  | cons c rest ih =>
    have hc : c ≠ '/' := fun hc => h (hc ▸ List.mem_cons_self c rest)
    have hr : '/' ∉ rest := fun hm => h (List.mem_cons_of_mem _ hm)
    simp [segsAux, hc, ih _ hr]

lemma segsAux_shortlink (idc : List Char) (h : '/' ∉ idc) :
    segsAux ('/' :: 's' :: '/' :: idc) [] = [[], ['s'], idc] := by
  simp [segsAux, segsAux_no_slash idc [] h]

lemma shortLinkMatch_exact (id : String) (hid : id ≠ "") (hslash : '/' ∉ id.data) :
    shortLinkMatch ("/s/" ++ id) = some id := by
  cases id with
  | mk l =>
    have hl : l ≠ [] := fun h => hid (by rw [h])
    have hdata : ("/s/" ++ String.mk l).data = '/' :: 's' :: '/' :: l := by
      rw [String.data_append]
      rfl
    have hsegs : pathSegs ("/s/" ++ String.mk l) = [[], ['s'], l] := by
      rw [pathSegs, hdata]
      exact segsAux_shortlink l hslash
    have hemp : l.isEmpty = false := by
      cases l with
      | nil => exact absurd rfl hl
      | cons c cs => rfl
    rw [shortLinkMatch, hsegs]
    simp [hemp]

lemma shortLinkMatch_none_next (path : String) (h : shortLinkMatch path = none) (b : Bool) :
    handleShortLinkRequest path b = NextResponseAction.next := by
  rw [handleShortLinkRequest, h]

lemma handleShortLinkRequest_not_bot (path : String) :
    handleShortLinkRequest path false = NextResponseAction.next := by
  rw [handleShortLinkRequest]
  cases shortLinkMatch path <;> rfl


/-! Claim theorems. -/

/-- C1: for every configuration text whose validation fails (isValidConfig is
false on the error report, i.e. the report has a non-null yamlError or a
non-empty ajvErrors list), the value passed to the Flow component is exactly
the constant placeholder string, never the raw configuration text. -/
theorem flow_receives_placeholder_on_invalid (e : IError) (currentConfig : String)
    (h : isValidConfig e = false) :
    flowValue (isValidConfig e) currentConfig = "\x7b\x7d" := by
  rw [h]
  rfl

/-- Witness for C1 at a concrete invalid report and a concrete text. -/
theorem flow_receives_placeholder_on_invalid_witness :
    flowValue (isValidConfig ⟨some "mapping values are not allowed here", none⟩)
      "receivers: x" = "\x7b\x7d" :=
  flow_receives_placeholder_on_invalid ⟨some "mapping values are not allowed here", none⟩
    "receivers: x" (by decide)

/-- C2 counterexample: the empty configuration text passes validation under
the empty error report, yet the Flow component receives the placeholder
rather than that (empty) text, so the value is not the text unmodified. -/
theorem flow_passthrough_cex :
    isValidConfig ⟨none, none⟩ = true ∧
    flowValue (isValidConfig ⟨none, none⟩) "" ≠ "" := by decide

/-- C2 amended: for every configuration text that passes validation and is
nonempty, the Flow component receives exactly that text, unmodified; the
empty string is the single exception and yields the placeholder, because the
JS disjunction treats the empty string as falsy. -/
theorem flow_passthrough_on_valid_nonempty (e : IError) (currentConfig : String)
    (hv : isValidConfig e = true) (hne : currentConfig ≠ "") :
    flowValue (isValidConfig e) currentConfig = currentConfig := by
  rw [hv]
  simp [flowValue, truthyString, hne]

/-- Witness for the amended C2 at a concrete valid report and nonempty text. -/
theorem flow_passthrough_on_valid_nonempty_witness :
    flowValue (isValidConfig ⟨none, some []⟩) "receivers:" = "receivers:" :=
  flow_passthrough_on_valid_nonempty ⟨none, some []⟩ "receivers:" (by decide) (by decide)

/-- C3 counterexample: at a concrete link function and configuration, the
history update issued by onChangeConfig uses the pushState method, which is
distinct from replaceState; this refutes the claim that browser history
replacement is used. -/
theorem onChangeConfig_uses_pushState_cex :
    (onChangeConfig id "service:").method = HistoryMethod.pushState ∧
    HistoryMethod.pushState ≠ HistoryMethod.replaceState :=
  ⟨rfl, by decide⟩

/-- C3 amended: when the internally held configuration text differs from the
URL-encoded text, the store pushes the new URL built by the link function
using history.pushState, not replaceState, so a navigation-stack entry is
created for each such change. -/
theorem onChangeConfig_pushState_spec (getLink : String → String) (newConfig : String) :
    (onChangeConfig getLink newConfig).method = HistoryMethod.pushState ∧
    (onChangeConfig getLink newConfig).url = getLink newConfig :=
  ⟨rfl, rfl⟩

/-- C4: the pure view-width function maps the code-only mode to the full
width, the diagram-only mode (pipeline) to a zero width, and the split mode
(both) to the stored pixel width rendered as a CSS pixel string, for every
stored width value. -/
theorem calculateViewWidth_spec (width : Int) :
    calculateViewWidth "code" width = "100%" ∧
    calculateViewWidth "pipeline" width = "0px" ∧
    calculateViewWidth "both" width = toString width ++ "px" :=
  ⟨rfl, rfl, rfl⟩

/-- C5: panel-width persistence round-trips: after the resize handler stores
a width value w, a fresh load of the initial width state reads back exactly
w from the localStorage key width. -/
theorem width_persistence_roundtrip (store : LocalStorage) (w : Int) :
    initialWidth (onWidthChange store w).1 = some w := by
  have hget : getItem (onWidthChange store w).1 "width" = some (jsStringOfInt w) := by
    simp [onWidthChange, setItem, getItem, List.find?]
  simp [initialWidth, hget, jsNumber_roundtrip]

/-- C6: the change-detection effect issues exactly one history update,
reflecting the new text through the link function, when the current
configuration differs from the URL-decoded one; when they are equal it
issues none, so repeated identical values produce no duplicate entries. -/
theorem config_sync_effect_spec (getLink : String → String) (currentConfig config : String) :
    (currentConfig ≠ config →
      configSyncEffect getLink currentConfig config = [onChangeConfig getLink currentConfig] ∧
      (configSyncEffect getLink currentConfig config).length = 1 ∧
      (onChangeConfig getLink currentConfig).url = getLink currentConfig) ∧
    (currentConfig = config → configSyncEffect getLink currentConfig config = []) := by
  constructor
  · intro h
    refine ⟨?_, ?_, rfl⟩ <;> simp [configSyncEffect, h]
  · intro h
    simp [configSyncEffect, h]

/-- Witness for C6: one update on divergent texts, none on equal texts. -/
theorem config_sync_effect_spec_witness :
    configSyncEffect id "receivers:" "" = [onChangeConfig id "receivers:"] ∧
    configSyncEffect id "receivers:" "receivers:" = [] :=
  ⟨((config_sync_effect_spec id "receivers:" "").1 (by decide)).1,
   (config_sync_effect_spec id "receivers:" "receivers:").2 rfl⟩

/-- C7: the mount-time analytics effect fires the non-default-config event
exactly once if and only if the loaded configuration differs from the
documented default fallback; when they are equal it fires nothing. -/
theorem mount_track_effect_spec (config fallback : String) :
    ((mountTrackEffect config fallback).count "Opened with non-default config" = 1 ↔
      config ≠ fallback) ∧
    (config = fallback → mountTrackEffect config fallback = []) := by
  by_cases h : config = fallback
  · refine ⟨?_, fun _ => by simp [mountTrackEffect, h]⟩
    simp [mountTrackEffect, h]
  · refine ⟨?_, fun he => absurd he h⟩
    have hc : mountTrackEffect config fallback = ["Opened with non-default config"] := by
      simp [mountTrackEffect, h]
    rw [hc]
    simp [h]

/-- Witness for C7: the event fires once for a nondefault load and not at all
for a default load, at concrete configurations. -/
theorem mount_track_effect_spec_witness :
    ((mountTrackEffect "receivers:" "").count "Opened with non-default config" = 1 ↔
      ("receivers:" : String) ≠ "") ∧
    mountTrackEffect "" "" = [] :=
  ⟨(mount_track_effect_spec "receivers:" "").1, (mount_track_effect_spec "" "").2 rfl⟩

/-- C8 counterexample: the pathname /s/abc/s/def is not exactly of the form
/s/<id> (it has extra segments), yet a bot-classified request to it is
rewritten rather than passed through, because the middleware regular
expression is anchored only at the end of the pathname. -/
theorem shortlink_tail_match_cex :
    claimExactShortLinkPath "/s/abc/s/def" = false ∧
    handleShortLinkRequest "/s/abc/s/def" true = NextResponseAction.rewrite "/s/def/preview" ∧
    handleShortLinkRequest "/s/abc/s/def" true ≠ NextResponseAction.next := by decide

/-- C8 amended: a bot request whose path is exactly /s/<id> with a nonempty
slash-free id is rewritten to /s/<id>/preview; every non-bot request passes
through unmodified; every request whose path does not end in a short-link
tail passes through, in particular /s/abc123/extra does even for bots. The
regular expression is anchored at the end only, so paths merely ending in a
short-link tail, such as /s/abc/s/def, are also rewritten for bots. -/
theorem handleShortLinkRequest_spec (path id : String)
    (hid : id ≠ "") (hslash : '/' ∉ id.data) :
    handleShortLinkRequest ("/s/" ++ id) true
        = NextResponseAction.rewrite ("/s/" ++ id ++ "/preview") ∧
    handleShortLinkRequest path false = NextResponseAction.next ∧
    (shortLinkMatch path = none → handleShortLinkRequest path true = NextResponseAction.next) ∧
    handleShortLinkRequest "/s/abc123/extra" true = NextResponseAction.next := by
  refine ⟨?_, handleShortLinkRequest_not_bot path,
    fun h => shortLinkMatch_none_next path h true, by decide⟩
  rw [handleShortLinkRequest, shortLinkMatch_exact id hid hslash]
  rfl

/-- Witness for the amended C8 at the concrete id abc123. -/
theorem handleShortLinkRequest_spec_witness :
    handleShortLinkRequest ("/s/" ++ "abc123") true
        = NextResponseAction.rewrite ("/s/" ++ "abc123" ++ "/preview") ∧
    handleShortLinkRequest "/s/abc123" false = NextResponseAction.next :=
  ⟨(handleShortLinkRequest_spec "/s/abc123" "abc123" (by decide) (by decide)).1,
   (handleShortLinkRequest_spec "/s/abc123" "abc123" (by decide) (by decide)).2.1⟩

/-- C9: the validation aggregator returns the empty error report whenever
either prerequisite handle is not ready, for every configuration text and
every external validator; and validity of a report holds exactly when its
yamlError is null and its ajvErrors list, with an absent list counting as
empty, is empty. -/
theorem validation_aggregator_spec (editorRef monacoRef : Bool)
    (validate : String → IError) (currentConfig : String) (e : IError) :
    ((editorRef && monacoRef) = false →
      totalValidationErrors editorRef monacoRef validate currentConfig = {}) ∧
    (isValidConfig e = true ↔ e.yamlError = none ∧ e.ajvErrors.getD [] = []) := by
  constructor
  · intro h
    simp [totalValidationErrors, h]
  · cases e with
    | mk y a => cases y <;> cases a <;> simp [isValidConfig, List.length_eq_zero]

/-- Witness for C9: a not-ready aggregator yields the empty report, and a
concrete report with no yamlError and an empty ajvErrors list is valid. -/
theorem validation_aggregator_spec_witness :
    totalValidationErrors false true (fun _ => ⟨some "parse error", none⟩) "receivers:"
        = ⟨none, none⟩ ∧
    (isValidConfig ⟨none, some []⟩ = true ↔
      (IError.mk none (some [])).yamlError = none ∧
      (IError.mk none (some [])).ajvErrors.getD [] = []) :=
  ⟨(validation_aggregator_spec false true (fun _ => ⟨some "parse error", none⟩)
      "receivers:" ⟨none, some []⟩).1 rfl,
   (validation_aggregator_spec false true (fun _ => ⟨some "parse error", none⟩)
      "receivers:" ⟨none, some []⟩).2⟩

/-- C10: the empty configuration text yields the placeholder at the diagram
interface even when validation passes; and a selection failure in the editor
change handler degrades to the empty configuration rather than throwing,
after which the diagram receives the placeholder under every validation
report. -/
theorem empty_config_placeholder_spec (selectConfigType : String → Option String)
    (value : Option String) (hsel : selectConfigType (value.getD "") = none) :
    flowValue true "" = "\x7b\x7d" ∧
    handleEditorChange selectConfigType value = "" ∧
    ∀ e : IError,
      flowValue (isValidConfig e) (handleEditorChange selectConfigType value) = "\x7b\x7d" := by
  have hchange : handleEditorChange selectConfigType value = "" := by
    rw [handleEditorChange, hsel]
    rfl
  refine ⟨rfl, hchange, fun e => ?_⟩
  rw [hchange]
  cases hb : isValidConfig e <;> decide

/-- Witness for C10 at a concrete failing selection function and value. -/
theorem empty_config_placeholder_spec_witness :
    flowValue true "" = "\x7b\x7d" ∧
    handleEditorChange (fun _ => none) (some "receivers:") = "" :=
  ⟨(empty_config_placeholder_spec (fun _ => none) (some "receivers:") rfl).1,
   (empty_config_placeholder_spec (fun _ => none) (some "receivers:") rfl).2.1⟩

end OtelBin
